import Mathlib

/-!
Verification of the work-time-prediction multi-tenant session, model-cache
and quota subsystem.  The definitions below are a shallow embedding of
`core/session_manager.py`, `core/quota_manager.py` and
`models/database.py`: Python datetimes become `Nat` (seconds), opaque
tokens and pickled artifacts become `Nat`, the SQLite sessions table, the
per-model directories and the `_ml_state` dict become association lists,
and the `get_session` / `delete_session` mutual recursion is made total
with an explicit fuel argument standing for Python's recursion limit
(exhaustion is the embedded image of `RecursionError`).  Errors carry the
state at the point the exception is raised, so "no writes happened"
facts are equalities on that state.
-/

deriving instance DecidableEq for Except

namespace WorkTimePred

/-! ## Association-list helpers (Python dict / directory keyed by id) -/

/-- Lookup in an association list keyed by `Nat` (Python `dict.get` /
`key in dict`). -/
def alookup {α : Type} : List (Nat × α) → Nat → Option α
  | [], _ => none
  | p :: rest, key => if p.1 == key then some p.2 else alookup rest key

/-- Dict assignment `d[key] = v`: replaces in place, else appends. -/
def ainsert {α : Type} : List (Nat × α) → Nat → α → List (Nat × α)
  | [], key, v => [(key, v)]
  | p :: rest, key, v =>
    if p.1 == key then (key, v) :: rest else p :: ainsert rest key v

/-- Removal of a key (`shutil.rmtree` of a directory keyed by id). -/
def aerase {α : Type} (l : List (Nat × α)) (key : Nat) : List (Nat × α) :=
  l.filter (fun p => p.1 != key)

/-! ## Quota manager (`core/quota_manager.py`, `models/database.py`) -/

/-- `DEFAULT_QUOTAS` keys used by `QuotaManager` (`core/constants.py`).
`storage` values are Python floats; they are embedded as rationals, which
is faithful for every comparison the claims exercise. -/
structure QuotaConfig where
  models_per_ip : Nat
  max_storage_per_ip_mb : ℚ
  requests_per_minute : Nat
  train_per_hour : Nat
  predictions_per_day : Nat
  ban_after_violations : Nat
  ban_duration_hours : Nat
deriving DecidableEq, Repr

/-- The concrete `DEFAULT_QUOTAS` dict of `core/constants.py`. -/
def DEFAULT_QUOTAS : QuotaConfig :=
  { models_per_ip := 10
    max_storage_per_ip_mb := 500
    requests_per_minute := 60
    train_per_hour := 5
    predictions_per_day := 1000
    ban_after_violations := 10
    ban_duration_hours := 24 }

/-- One `ip_quotas` row (`models/database.py`, class `IPQuota`). -/
structure IPQuota where
  ip_address : Nat
  models_count : Nat := 0
  storage_used_mb : ℚ := 0
  requests_count : Nat := 0
  train_count : Nat := 0
  predictions_count : Nat := 0
  violations_count : Nat := 0
  is_banned : Bool := false
  banned_until : Option Nat := none
  last_reset : Nat := 0
  created_at : Nat := 0
deriving DecidableEq, Repr

/-- `IPQuota.is_currently_banned` (`models/database.py` lines 68-75). -/
def is_currently_banned (q : IPQuota) (now : Nat) : Bool :=
  if q.is_banned = false then false
  else
    match q.banned_until with
    | none => true
    | some t => decide (now < t)

/-- `QuotaManager._reset_counters_if_needed`: resets the three usage
counters and advances `last_reset` once more than one hour (3600 s) has
elapsed.  `violations_count` is untouched. -/
def reset_counters_if_needed (q : IPQuota) (now : Nat) : IPQuota :=
  if 3600 < now - q.last_reset then
    { q with requests_count := 0, train_count := 0, predictions_count := 0,
             last_reset := now }
  else q

/-- `QuotaManager._increment_violations`: adds one violation, then issues
a ban only when the threshold is reached while the stored `is_banned`
flag is still false. -/
def increment_violations (cfg : QuotaConfig) (q : IPQuota) (now : Nat) : IPQuota :=
  let q1 : IPQuota := { q with violations_count := q.violations_count + 1 }
  if cfg.ban_after_violations ≤ q1.violations_count ∧ q1.is_banned = false then
    { q1 with is_banned := true,
              banned_until := some (now + cfg.ban_duration_hours * 3600) }
  else q1

/-- `QuotaManager.check_models_quota`.  Returns the allow/deny flag and
the quota row after the call. -/
def check_models_quota (cfg : QuotaConfig) (q : IPQuota) (now : Nat) : Bool × IPQuota :=
  if is_currently_banned q now = true then (false, q)
  else if cfg.models_per_ip ≤ q.models_count then
    (false, increment_violations cfg q now)
  else (true, q)

/-- `QuotaManager.check_storage_quota`. -/
def check_storage_quota (cfg : QuotaConfig) (q : IPQuota) (now : Nat)
    (additional_mb : ℚ) : Bool × IPQuota :=
  if is_currently_banned q now = true then (false, q)
  else if cfg.max_storage_per_ip_mb < q.storage_used_mb + additional_mb then
    (false, increment_violations cfg q now)
  else (true, q)

/-- `QuotaManager.check_rate_limit`.  The in-place counter reset is
threaded into the returned row; an action other than the three known
strings falls through to the final `return True`. -/
def check_rate_limit (cfg : QuotaConfig) (q : IPQuota) (now : Nat)
    (action : String) : Bool × IPQuota :=
  if is_currently_banned q now = true then (false, q)
  else
    let q1 := reset_counters_if_needed q now
    if action = "request" then
      if cfg.requests_per_minute ≤ q1.requests_count then
        (false, increment_violations cfg q1 now)
      else (true, q1)
    else if action = "train" then
      if cfg.train_per_hour ≤ q1.train_count then
        (false, increment_violations cfg q1 now)
      else (true, q1)
    else if action = "predict" then
      if cfg.predictions_per_day ≤ q1.predictions_count then
        (false, increment_violations cfg q1 now)
      else (true, q1)
    else (true, q1)

/-- `QuotaManager.increment_counter`. -/
def increment_counter (q : IPQuota) (action : String) : IPQuota :=
  if action = "request" then { q with requests_count := q.requests_count + 1 }
  else if action = "train" then { q with train_count := q.train_count + 1 }
  else if action = "predict" then
    { q with predictions_count := q.predictions_count + 1 }
  else q

/-- `QuotaManager.update_storage`: overwrites `storage_used_mb` with the
recomputed on-disk total (passed here as a parameter). -/
def update_storage (q : IPQuota) (total : ℚ) : IPQuota :=
  { q with storage_used_mb := total }

/-- `QuotaManager.unban_ip`. -/
def unban_ip (q : IPQuota) : IPQuota :=
  { q with is_banned := false, banned_until := none, violations_count := 0 }

/-- Every state-changing operation of `QuotaManager` on one IP's row. -/
inductive QMOp where
  | checkModels
  | checkStorage (additional_mb : ℚ)
  | checkRate (action : String)
  | incCounter (action : String)
  | setStorage (total : ℚ)
  | resetWindow
  | incViolations
  | unban
deriving DecidableEq, Repr

/-- The quota row after one `QuotaManager` call. -/
def applyQMOp (cfg : QuotaConfig) (now : Nat) (q : IPQuota) : QMOp → IPQuota
  | .checkModels => (check_models_quota cfg q now).2
  | .checkStorage a => (check_storage_quota cfg q now a).2
  | .checkRate act => (check_rate_limit cfg q now act).2
  | .incCounter act => increment_counter q act
  | .setStorage t => update_storage q t
  | .resetWindow => reset_counters_if_needed q now
  | .incViolations => increment_violations cfg q now
  | .unban => unban_ip q

/-! ## Session manager (`core/session_manager.py`) -/

/-- One row of the `sessions` SQLite table created by
`SessionManager._init_database`. -/
structure SessionRow where
  session_id : Nat
  model_id : Nat
  ip_address : Nat
  created_at : Nat
  last_accessed : Nat
  expires_at : Nat
  metadata : String
deriving DecidableEq, Repr

/-- The `metadata.json` document written by `SessionManager.save_model`. -/
structure ModelMetadata where
  trained_at : Nat
  data_row_count : Nat
  employee_count : Nat
  is_trained : Bool
deriving DecidableEq, Repr

/-- The files of one per-model directory under `MODELS_DIR`.  An absent
file is `none`; the arrival/departure files store the pickled
`model_start_time` / `model_end_time` values (themselves optional), the
encoder file stores the `{encoder, id_map}` pair, `data_db` the cleaned
training rows (content opaque to the claims). -/
structure ModelDirFiles where
  metadata : Option ModelMetadata := none
  arrival : Option (Option Nat) := none
  departure : Option (Option Nat) := none
  encoder : Option (Nat × List (Nat × Nat)) := none
  data_db : Option Nat := none
deriving DecidableEq, Repr

/-- The `MLState` objects held in `SessionManager._ml_state` and passed
to `save_model`.  The attributes are the ones `session_manager.py` reads
and writes; they coincide with class `ModelState`
(`core/model_state.py`), whose constructor defaults are reproduced
here. -/
structure MLState where
  model_start_time : Option Nat := none
  model_end_time : Option Nat := none
  id_encoder : Nat := 0
  id_map : List (Nat × Nat) := []
  is_trained : Bool := false
  trained_at : Option Nat := none
  data_row_count : Nat := 0
  entity_count : Nat := 0
deriving DecidableEq, Repr

/-- The whole state a `SessionManager` instance acts on: the sessions
table, the model directories on disk, and the in-memory `_ml_state`
dict keyed by session id. -/
structure SMState where
  store : List SessionRow
  disk : List (Nat × ModelDirFiles)
  cache : List (Nat × MLState)
deriving DecidableEq, Repr

/-- Python exceptions the session-manager paths can raise.
`operationalError` is the sqlite error escaping `save_model`'s data
step, `fileError` a failed `open` on a missing directory.
`sessionNotFound` is the typed error named by the design documents; the
code base defines no such exception class and never raises it, it is
present only so statements can compare against it. -/
inductive SMErr where
  | valueError
  | recursionLimit
  | fileError
  | operationalError
  | sessionNotFound
deriving DecidableEq, Repr

/-- `UPDATE sessions SET last_accessed = now WHERE session_id = sid`. -/
def touchRow (store : List SessionRow) (sid now : Nat) : List SessionRow :=
  store.map (fun r =>
    if r.session_id == sid then { r with last_accessed := now } else r)

/-- `SessionManager.get_session`.  On an expired row the code calls
`delete_session`, which itself starts by calling `get_session`; that
body is inlined here (the branch below the recursive call is
`delete_session`'s removal code).  `fuel` bounds the recursion depth as
Python's recursion limit does; hitting zero is `RecursionError`, and the
error carries the state at the raise point (no commit has happened on
any error path). -/
def get_session : Nat → Nat → SMState → Nat →
    Except (SMErr × SMState) (Option SessionRow × SMState)
  | 0, _, s, _ => .error (.recursionLimit, s)
  | fuel + 1, now, s, sid =>
    match s.store.find? (fun r => r.session_id == sid) with
    | none => .ok (none, s)
    | some row =>
      if row.expires_at < now then
        -- delete_session(session_id), inlined
        match get_session fuel now s sid with
        | .error e => .error e
        | .ok (none, s1) => .ok (none, s1)
        | .ok (some row1, s1) =>
          .ok (none, { s1 with
                        disk := aerase s1.disk row1.model_id,
                        store := s1.store.filter
                          (fun r => r.session_id != sid) })
      else
        .ok (some row, { s with store := touchRow s.store sid now })

/-- `SessionManager.delete_session`.  Returns no existence flag (the
Python function returns `None`); only the resulting state. -/
def delete_session (fuel now : Nat) (s : SMState) (sid : Nat) :
    Except (SMErr × SMState) SMState :=
  match get_session fuel now s sid with
  | .error e => .error e
  | .ok (none, s1) => .ok s1
  | .ok (some row, s1) =>
    .ok { s1 with
          disk := aerase s1.disk row.model_id,
          store := s1.store.filter (fun r => r.session_id != sid) }

/-- `SessionManager.save_model`.  Raises `ValueError` when
`get_session` found nothing, else writes the two estimator pickles and
the encoder pickle.  The following data-store step never succeeds:
`get_all_data(model_data_db_path)` is handed an absolute path where a
session id is expected, `get_session_data_db_path` double-joins it
(`SESSIONS_DIR / <abs path> / data.db` is `<...>/data.db/data.db`), the
read fails and `get_all_data`'s broad `except` returns an empty
zero-column frame, whose `to_sql(..., if_exists='replace')` drops the
`schedule_data` table and then raises `sqlite3.OperationalError` on the
column-less `CREATE TABLE`.  The error escapes `save_model` uncaught,
so `metadata.json` is never written and no call returns normally; the
in-memory `_ml_state` cache is not touched on any path. -/
def save_model (fuel now : Nat) (s : SMState) (ml : MLState) (sid : Nat)
    (dataRowCount : Nat) : Except (SMErr × SMState) SMState :=
  match get_session fuel now s sid with
  | .error e => .error e
  | .ok (none, s1) => .error (.valueError, s1)
  | .ok (some row, s1) =>
    match alookup s1.disk row.model_id with
    | none => .error (.fileError, s1)
    | some dir =>
      let dir1 : ModelDirFiles :=
        { dir with
          arrival := some ml.model_start_time,
          departure := some ml.model_end_time,
          encoder := some (ml.id_encoder, ml.id_map),
          data_db := none }
      .error (.operationalError,
        { s1 with disk := ainsert s1.disk row.model_id dir1 })

/-- `SessionManager.load_model`.  The `_ml_state` dict is consulted
before anything else — before the session row, its expiry, or the disk
artifacts are looked at.  On a miss the session is resolved, the
metadata file's existence checked, the three pickles read (any missing
one is caught and degrades to `None`), and the hydrated state cached.
The hydrated `MLState` keeps the constructor defaults for
`trained_at`, `data_row_count` and `entity_count`: `load_model` never
reads those back from `metadata.json`. -/
def load_model (fuel now : Nat) (s : SMState) (sid : Nat) :
    Except (SMErr × SMState) (Option MLState × SMState) :=
  match alookup s.cache sid with
  | some ml => .ok (some ml, s)
  | none =>
    match get_session fuel now s sid with
    | .error e => .error e
    | .ok (none, s1) => .ok (none, s1)
    | .ok (some row, s1) =>
      match alookup s1.disk row.model_id with
      | none => .ok (none, s1)
      | some dir =>
        match dir.metadata with
        | none => .ok (none, s1)
        | some _ =>
          match dir.arrival, dir.departure, dir.encoder with
          | some a, some d, some ed =>
            let ml : MLState :=
              { model_start_time := a,
                model_end_time := d,
                id_encoder := ed.1,
                id_map := ed.2,
                is_trained := true }
            .ok (some ml, { s1 with cache := ainsert s1.cache sid ml })
          | _, _, _ => .ok (none, s1)

/-- `MAX_MODELS_IN_CACHE` (`core/constants.py` line 258), documented
there as the LRU bound of the in-memory model cache. -/
def MAX_MODELS_IN_CACHE : Nat := 50

/-- The state after a `load_model` call, whether it returned or raised. -/
def loadState (r : Except (SMErr × SMState) (Option MLState × SMState)) : SMState :=
  match r with
  | .ok (_, s) => s
  | .error (_, s) => s

/-- The model a `load_model` call handed back (`none` on a miss or an
exception). -/
def loadResult (r : Except (SMErr × SMState) (Option MLState × SMState)) :
    Option MLState :=
  match r with
  | .ok (m, _) => m
  | .error _ => none

/-- The state after a `save_model` call, whether it returned or raised. -/
def saveState (r : Except (SMErr × SMState) SMState) : SMState :=
  match r with
  | .ok s => s
  | .error (_, s) => s

/-- Whether a `save_model` call returned without raising. -/
def saveOk (r : Except (SMErr × SMState) SMState) : Bool :=
  match r with
  | .ok _ => true
  | .error _ => false

/-- The exception a `save_model` call raised, if any. -/
def saveErr (r : Except (SMErr × SMState) SMState) : Option SMErr :=
  match r with
  | .ok _ => none
  | .error (e, _) => some e

/-- No `save_model` call, on any state and any input, returns without
raising: every branch of the function ends in an exception. -/
def save_model_always_fails : Prop :=
  ∀ (fuel now : Nat) (s : SMState) (ml : MLState) (sid n : Nat),
    saveOk (save_model fuel now s ml sid n) = false

/-- `get_session` exhausts every recursion budget on this input — the
embedded form of an unconditional `RecursionError` — and the state at
the raise point is the unchanged input state. -/
def get_session_diverges (now : Nat) (s : SMState) (sid : Nat) : Prop :=
  ∀ fuel, get_session fuel now s sid = .error (.recursionLimit, s)

/-- `delete_session` exhausts every recursion budget on this input. -/
def delete_session_diverges (now : Nat) (s : SMState) (sid : Nat) : Prop :=
  ∀ fuel, delete_session fuel now s sid = .error (.recursionLimit, s)

/-- `save_model` exhausts every recursion budget on this input. -/
def save_model_diverges (now : Nat) (s : SMState) (ml : MLState) (sid n : Nat) : Prop :=
  ∀ fuel, save_model fuel now s ml sid n = .error (.recursionLimit, s)

/-! ## Concrete fixtures used by the per-claim theorems -/

/-- An expired session row (expiry 5, probed at time 9). -/
def c1_row : SessionRow :=
  { session_id := 1, model_id := 11, ip_address := 7, created_at := 0,
    last_accessed := 0, expires_at := 5, metadata := "" }

/-- The expired session's model directory, still on disk. -/
def c1_dir : ModelDirFiles := { data_db := some 7 }

/-- A store holding only the expired session. -/
def c1_state : SMState :=
  { store := [c1_row], disk := [(11, c1_dir)], cache := [] }

/-- A live, trained session that is not yet cached. -/
def c2_row : SessionRow :=
  { session_id := 50, model_id := 50, ip_address := 0, created_at := 0,
    last_accessed := 0, expires_at := 100, metadata := "" }

/-- A fully trained model directory for the C2 session. -/
def c2_dir : ModelDirFiles :=
  { metadata := some
      { trained_at := 0, data_row_count := 5, employee_count := 1,
        is_trained := true },
    arrival := some none, departure := some none,
    encoder := some (0, [(0, 0)]), data_db := some 0 }

/-- `_ml_state` already holds `MAX_MODELS_IN_CACHE` = 50 entries (ids 0
to 49); session 50 is about to be hydrated as the 51st. -/
def c2_state : SMState :=
  { store := [c2_row], disk := [(50, c2_dir)],
    cache := (List.range 50).map (fun i => (i, ({} : MLState))) }

/-- The stale model state cached before the C3 retraining. -/
def c3_v1 : MLState := { id_map := [(1, 1)], is_trained := true }

/-- The newly trained model state passed to `save_model` in C3. -/
def c3_v2 : MLState :=
  { model_start_time := some 4, model_end_time := some 5, id_encoder := 9,
    id_map := [(2, 2)], is_trained := true }

/-- The live C3 session row. -/
def c3_row : SessionRow :=
  { session_id := 3, model_id := 33, ip_address := 1, created_at := 0,
    last_accessed := 0, expires_at := 100, metadata := "" }

/-- The C3 model directory holding the first training's artifacts. -/
def c3_dir : ModelDirFiles :=
  { metadata := some
      { trained_at := 0, data_row_count := 1, employee_count := 1,
        is_trained := true },
    arrival := some none, departure := some none,
    encoder := some (1, [(1, 1)]), data_db := some 77 }

/-- C3 state with the first training's hydrated copy still cached. -/
def c3_state : SMState :=
  { store := [c3_row], disk := [(33, c3_dir)], cache := [(3, c3_v1)] }

/-- The model state cached for the C4 session. -/
def c4_ml : MLState := { id_map := [(3, 0)], is_trained := true }

/-- The C4 session row (expiry 10; served at time 99). -/
def c4_row : SessionRow :=
  { session_id := 2, model_id := 22, ip_address := 9, created_at := 0,
    last_accessed := 0, expires_at := 10, metadata := "" }

/-- The C4 model directory. -/
def c4_dir : ModelDirFiles := { data_db := some 1 }

/-- The C4 session, expired but still cached. -/
def c4_state_expired : SMState :=
  { store := [c4_row], disk := [], cache := [(2, c4_ml)] }

/-- The C4 session while still live, cached, about to be deleted. -/
def c4_state_live : SMState :=
  { store := [c4_row], disk := [(22, c4_dir)], cache := [(2, c4_ml)] }

/-- The state `delete_session` leaves: row and directory gone, the cache
entry untouched. -/
def c4_state_deleted : SMState :=
  { store := [], disk := [], cache := [(2, c4_ml)] }

/-- The expired C5 session row (expiry 20, deleted at time 99). -/
def c5_row : SessionRow :=
  { session_id := 6, model_id := 66, ip_address := 2, created_at := 0,
    last_accessed := 0, expires_at := 20, metadata := "" }

/-- A store holding only the expired C5 session. -/
def c5_state : SMState :=
  { store := [c5_row], disk := [(66, c4_dir)], cache := [] }

/-- The empty manager state. -/
def c5_empty : SMState := { store := [], disk := [], cache := [] }

/-- The model state C6 tries to save. -/
def c6_ml : MLState := { id_map := [(5, 0)], is_trained := true }

/-- An empty manager state: session id 42 does not exist. -/
def c6_state : SMState := { store := [], disk := [], cache := [] }

/-- The expired C6 session row (expiry 4, save attempted at time 9). -/
def c6_row : SessionRow :=
  { session_id := 8, model_id := 88, ip_address := 3, created_at := 0,
    last_accessed := 0, expires_at := 4, metadata := "" }

/-- A store holding only the expired C6 session. -/
def c6_exp_state : SMState :=
  { store := [c6_row], disk := [(88, c4_dir)], cache := [] }

/-- A quota row that is currently banned (flag set, ban end in the
future). -/
def q_c7_banned : IPQuota :=
  { ip_address := 1, violations_count := 12, is_banned := true,
    banned_until := some 100 }

/-- A quota row one violation below the default ban threshold. -/
def q_c7_near : IPQuota := { ip_address := 2, violations_count := 9 }

/-- A plain unbanned quota row. -/
def q_c8 : IPQuota := { ip_address := 3, violations_count := 4 }

/-- A quota row whose `is_banned` flag is set but whose ban end has
already elapsed at the times the C9 witness uses. -/
def q_c9 : IPQuota :=
  { ip_address := 4, violations_count := 11, is_banned := true,
    banned_until := some 10 }

/-- An unbanned quota row with a stale reset window. -/
def q_c10 : IPQuota :=
  { ip_address := 5, violations_count := 3, requests_count := 7,
    last_reset := 0 }

/-! ## Lemmas about the quota manager -/

/-- A violation increment always adds exactly one, whether or not it
also issues a ban. -/
theorem increment_violations_count (cfg : QuotaConfig) (q : IPQuota) (now : Nat) :
    (increment_violations cfg q now).violations_count = q.violations_count + 1 := by
  simp only [increment_violations]
  split <;> rfl

/-- The window reset never touches `violations_count`. -/
theorem reset_counters_violations (q : IPQuota) (now : Nat) :
    (reset_counters_if_needed q now).violations_count = q.violations_count := by
  unfold reset_counters_if_needed
  split <;> rfl

/-- The row after `check_models_quota` is the input row or the input row
with one violation added. -/
theorem check_models_quota_snd (cfg : QuotaConfig) (q : IPQuota) (now : Nat) :
    (check_models_quota cfg q now).2 = q ∨
    (check_models_quota cfg q now).2 = increment_violations cfg q now := by
  unfold check_models_quota
  split_ifs <;> simp

/-- The row after `check_storage_quota` is the input row or the input
row with one violation added. -/
theorem check_storage_quota_snd (cfg : QuotaConfig) (q : IPQuota) (now : Nat) (a : ℚ) :
    (check_storage_quota cfg q now a).2 = q ∨
    (check_storage_quota cfg q now a).2 = increment_violations cfg q now := by
  unfold check_storage_quota
  split_ifs <;> simp

/-- The row after `check_rate_limit` is the input row, the reset row, or
the reset row with one violation added. -/
theorem check_rate_limit_snd (cfg : QuotaConfig) (q : IPQuota) (now : Nat)
    (act : String) :
    (check_rate_limit cfg q now act).2 = q ∨
    (check_rate_limit cfg q now act).2 = reset_counters_if_needed q now ∨
    (check_rate_limit cfg q now act).2
      = increment_violations cfg (reset_counters_if_needed q now) now := by
  unfold check_rate_limit
  split_ifs <;> (try simp) <;> (split <;> simp)

/-- `increment_counter` never touches `violations_count`. -/
theorem increment_counter_violations (q : IPQuota) (act : String) :
    (increment_counter q act).violations_count = q.violations_count := by
  unfold increment_counter
  split_ifs <;> rfl

/-! ## Claims C7 to C10 (quota manager) -/

/-- Claim C7: a currently banned IP (flag set, `banned_until` null or in
the future) is denied by `check_rate_limit`, `check_models_quota` and
`check_storage_quota` regardless of any counter; the violation increment
that reaches the threshold while the flag is clear issues a ban whose
currently-banned window is exactly the times before `now` plus the
configured duration; and `unban` ends it. -/
theorem C7_ban_short_circuit (cfg : QuotaConfig) (q : IPQuota) (now : Nat)
    (a : ℚ) (act : String) :
    (is_currently_banned q now = true →
        (check_rate_limit cfg q now act).1 = false
      ∧ (check_models_quota cfg q now).1 = false
      ∧ (check_storage_quota cfg q now a).1 = false)
    ∧ (q.is_banned = false →
        cfg.ban_after_violations ≤ q.violations_count + 1 →
        ∀ t, is_currently_banned (increment_violations cfg q now) t
              = decide (t < now + cfg.ban_duration_hours * 3600))
    ∧ (∀ t, is_currently_banned (unban_ip q) t = false) := by
  refine ⟨fun hb => ?_, fun hnb hth t => ?_, fun t => ?_⟩
  · exact ⟨by simp [check_rate_limit, hb], by simp [check_models_quota, hb],
      by simp [check_storage_quota, hb]⟩
  · simp [increment_violations, hnb, hth, is_currently_banned]
  · simp [unban_ip, is_currently_banned]

/-- Claim C7 witness at the default config and concrete rows. -/
theorem C7_witness :
    (check_rate_limit DEFAULT_QUOTAS q_c7_banned 5 "request").1 = false
    ∧ is_currently_banned (increment_violations DEFAULT_QUOTAS q_c7_near 5) 6
        = decide (6 < 5 + DEFAULT_QUOTAS.ban_duration_hours * 3600)
    ∧ is_currently_banned (unban_ip q_c7_banned) 5 = false :=
  ⟨((C7_ban_short_circuit DEFAULT_QUOTAS q_c7_banned 5 0 "request").1
      (by decide)).1,
   (C7_ban_short_circuit DEFAULT_QUOTAS q_c7_near 5 0 "request").2.1
      (by decide) (by decide) 6,
   (C7_ban_short_circuit DEFAULT_QUOTAS q_c7_banned 5 0 "request").2.2 5⟩

/-- Claim C8: no quota-manager operation lowers `violations_count`
except `unban`, which zeroes it and clears `is_banned` and
`banned_until`; issuing a ban does not reset the counter (a violation
increment always nets exactly plus one). -/
theorem C8_violations_monotone (cfg : QuotaConfig) (now : Nat) (q : IPQuota)
    (op : QMOp) :
    (op ≠ QMOp.unban →
      q.violations_count ≤ (applyQMOp cfg now q op).violations_count)
    ∧ (applyQMOp cfg now q QMOp.unban).violations_count = 0
    ∧ (applyQMOp cfg now q QMOp.unban).is_banned = false
    ∧ (applyQMOp cfg now q QMOp.unban).banned_until = none
    ∧ (increment_violations cfg q now).violations_count
        = q.violations_count + 1 := by
  refine ⟨fun hop => ?_, rfl, rfl, rfl, increment_violations_count cfg q now⟩
  cases op with
  | checkModels =>
    rcases check_models_quota_snd cfg q now with h | h <;>
      simp only [applyQMOp, h, increment_violations_count] <;> omega
  | checkStorage a =>
    rcases check_storage_quota_snd cfg q now a with h | h <;>
      simp only [applyQMOp, h, increment_violations_count] <;> omega
  | checkRate act =>
    rcases check_rate_limit_snd cfg q now act with h | h | h <;>
      simp only [applyQMOp, h, increment_violations_count,
        reset_counters_violations] <;> omega
  | incCounter act =>
    simp only [applyQMOp, increment_counter_violations]
    omega
  | setStorage t => exact Nat.le_refl _
  | resetWindow =>
    simp only [applyQMOp, reset_counters_violations]
    omega
  | incViolations =>
    simp only [applyQMOp, increment_violations_count]
    omega
  | unban => exact absurd rfl hop

/-- Claim C8 witness at the default config and a concrete row. -/
theorem C8_witness :
    q_c8.violations_count
      ≤ (applyQMOp DEFAULT_QUOTAS 5 q_c8 QMOp.checkModels).violations_count
    ∧ (applyQMOp DEFAULT_QUOTAS 5 q_c8 QMOp.unban).violations_count = 0 :=
  ⟨(C8_violations_monotone DEFAULT_QUOTAS 5 q_c8 QMOp.checkModels).1
      (by decide),
   (C8_violations_monotone DEFAULT_QUOTAS 5 q_c8 QMOp.checkModels).2.1⟩

/-- Claim C9: when the stored `is_banned` flag is already set — whether
or not `banned_until` has elapsed — a violation increment changes only
`violations_count`; `is_banned` and `banned_until` keep their values, so
no new ban period is issued. -/
theorem C9_increment_keeps_ban_fields (cfg : QuotaConfig) (q : IPQuota)
    (now : Nat) (h : q.is_banned = true) :
    increment_violations cfg q now
      = { q with violations_count := q.violations_count + 1 } := by
  simp [increment_violations, h]

/-- Claim C9 witness: the flag is set and the ban end (10) already
elapsed at `now = 50`, yet the increment only bumps the counter. -/
theorem C9_witness :
    increment_violations DEFAULT_QUOTAS q_c9 50
      = { q_c9 with violations_count := q_c9.violations_count + 1 } :=
  C9_increment_keeps_ban_fields DEFAULT_QUOTAS q_c9 50 rfl

/-- Claim C10: for an IP that is not currently banned and an action
other than `request`, `train` and `predict`, `check_rate_limit` allows
and the only possible state change is the window reset, which never
touches `violations_count` and only zeroes the three usage counters. -/
theorem C10_unknown_action_allows (cfg : QuotaConfig) (q : IPQuota) (now : Nat)
    (act : String) (hban : is_currently_banned q now = false)
    (h1 : act ≠ "request") (h2 : act ≠ "train") (h3 : act ≠ "predict") :
    check_rate_limit cfg q now act = (true, reset_counters_if_needed q now)
    ∧ (reset_counters_if_needed q now).violations_count = q.violations_count
    ∧ (reset_counters_if_needed q now = q ∨
       reset_counters_if_needed q now =
         { q with requests_count := 0, train_count := 0,
                  predictions_count := 0, last_reset := now }) := by
  refine ⟨?_, reset_counters_violations q now, ?_⟩
  · simp [check_rate_limit, hban, h1, h2, h3]
  · unfold reset_counters_if_needed
    split
    · right; rfl
    · left; rfl

/-- Claim C10 witness at the concrete action string `status`. -/
theorem C10_witness :
    check_rate_limit DEFAULT_QUOTAS q_c10 10 "status"
      = (true, reset_counters_if_needed q_c10 10)
    ∧ (reset_counters_if_needed q_c10 10).violations_count
        = q_c10.violations_count :=
  ⟨(C10_unknown_action_allows DEFAULT_QUOTAS q_c10 10 "status" (by decide)
      (by decide) (by decide) (by decide)).1,
   (C10_unknown_action_allows DEFAULT_QUOTAS q_c10 10 "status" (by decide)
      (by decide) (by decide) (by decide)).2.1⟩

/-! ## Lemmas about the session manager -/

/-- `get_session` on an id without a store row returns not-found and
leaves the state untouched. -/
theorem get_session_not_found (fuel now : Nat) (s : SMState) (sid : Nat)
    (h : s.store.find? (fun r => r.session_id == sid) = none) :
    get_session (fuel + 1) now s sid = .ok (none, s) := by
  simp [get_session, h]

/-- `get_session` on a live row returns it and refreshes
`last_accessed`. -/
theorem get_session_live (fuel now : Nat) (s : SMState) (sid : Nat)
    (row : SessionRow)
    (hfind : s.store.find? (fun r => r.session_id == sid) = some row)
    (hlive : ¬row.expires_at < now) :
    get_session (fuel + 1) now s sid
      = .ok (some row, { s with store := touchRow s.store sid now }) := by
  simp [get_session, hfind, hlive]

/-- `get_session` on an expired row recurses through `delete_session`
into itself against an unchanged state, so every recursion budget is
exhausted: the embedded `RecursionError`. -/
theorem get_session_expired_diverges (now : Nat) (s : SMState) (sid : Nat)
    (row : SessionRow)
    (hfind : s.store.find? (fun r => r.session_id == sid) = some row)
    (hexp : row.expires_at < now) :
    get_session_diverges now s sid := by
  intro fuel
  induction fuel with
  | zero => simp [get_session]
  | succ n ih => simp [get_session, hfind, hexp, ih]

/-- `delete_session` on an id without a store row is a no-op. -/
theorem delete_session_not_found (fuel now : Nat) (s : SMState) (sid : Nat)
    (h : s.store.find? (fun r => r.session_id == sid) = none) :
    delete_session (fuel + 1) now s sid = .ok s := by
  simp [delete_session, get_session_not_found fuel now s sid h]

/-- `delete_session` on an expired row inherits `get_session`'s
unbounded recursion. -/
theorem delete_session_expired_diverges (now : Nat) (s : SMState) (sid : Nat)
    (row : SessionRow)
    (hfind : s.store.find? (fun r => r.session_id == sid) = some row)
    (hexp : row.expires_at < now) :
    delete_session_diverges now s sid := by
  intro fuel
  simp [delete_session, get_session_expired_diverges now s sid row hfind hexp fuel]

/-- `save_model` on an expired session inherits `get_session`'s
unbounded recursion; no write has happened when the error escapes. -/
theorem save_model_expired_diverges (now : Nat) (s : SMState) (ml : MLState)
    (sid n : Nat) (row : SessionRow)
    (hfind : s.store.find? (fun r => r.session_id == sid) = some row)
    (hexp : row.expires_at < now) :
    save_model_diverges now s ml sid n := by
  intro fuel
  simp [save_model, get_session_expired_diverges now s sid row hfind hexp fuel]

/-- Dict assignment makes the assigned key readable. -/
theorem alookup_ainsert_self {α : Type} (l : List (Nat × α)) (k : Nat) (v : α) :
    alookup (ainsert l k v) k = some v := by
  induction l with
  | nil => simp [ainsert, alookup]
  | cons p rest ih =>
    cases h : (p.1 == k) with
    | true => simp [ainsert, alookup, h]
    | false => simp [ainsert, alookup, h, ih]

/-- Refreshing `last_accessed` moves the found row to its refreshed
copy. -/
theorem find_touchRow (store : List SessionRow) (sid now : Nat)
    (row : SessionRow)
    (h : store.find? (fun r => r.session_id == sid) = some row) :
    (touchRow store sid now).find? (fun r => r.session_id == sid)
      = some { row with last_accessed := now } := by
  induction store with
  | nil => simp [List.find?] at h
  | cons r rest ih =>
    cases hc : (r.session_id == sid) with
    | true =>
      simp only [List.find?, hc] at h
      cases h
      simp [touchRow, List.find?, hc]
    | false =>
      simp only [List.find?, hc] at h
      simp only [touchRow, List.map, hc, if_neg, List.find?]
      simpa [touchRow, hc] using ih h

/-! ## Claims C1 to C6 (session manager) -/

/-- Claim C1 (code bug): `get_session` on the expired session raises
instead of returning not-found — `get_session` and `delete_session`
call each other without ever removing the row, so every recursion
budget is exhausted and the error escapes with the state unchanged: the
store row and the model directory both survive. -/
theorem C1_expired_get_recursion :
    get_session_diverges 9 c1_state 1
    ∧ c1_state.store.find? (fun r => r.session_id == 1) = some c1_row
    ∧ alookup c1_state.disk 11 = some c1_dir :=
  ⟨get_session_expired_diverges 9 c1_state 1 c1_row (by decide) (by decide),
   by decide, by decide⟩

/-- Claim C2 (code bug): `_ml_state` is a plain dict.  With 50 entries
already cached — `MAX_MODELS_IN_CACHE`, the constant `constants.py`
documents as the LRU bound — hydrating a 51st session grows the cache
to 51 entries, and the least-recently-used entry (id 0, never accessed
since insertion) is still present: nothing is ever evicted. -/
theorem C2_cache_unbounded_no_eviction :
    (loadState (load_model 10 1 c2_state 50)).cache.length = 51
    ∧ MAX_MODELS_IN_CACHE < (loadState (load_model 10 1 c2_state 50)).cache.length
    ∧ alookup (loadState (load_model 10 1 c2_state 50)).cache 0
        = some ({} : MLState)
    ∧ loadResult (load_model 10 1 c2_state 50)
        = some { id_map := [(0, 0)], is_trained := true } := by
  decide

/-- Claim C4 (code bug): `load_model` consults the cache before any
expiry check and `delete_session` never evicts the cache, so the cached
model of session 2 is served at time 99 although the row expired at
time 10, and is still served after the session has been deleted. -/
theorem C4_cache_serves_expired_and_deleted :
    c4_row.expires_at < 99
    ∧ load_model 10 99 c4_state_expired 2 = .ok (some c4_ml, c4_state_expired)
    ∧ delete_session 10 5 c4_state_live 2 = .ok c4_state_deleted
    ∧ load_model 10 99 c4_state_deleted 2 = .ok (some c4_ml, c4_state_deleted) := by
  decide

/-- Claim C5 (code bug): `delete_session` of the expired session id 6
exhausts every recursion budget — the first call already raises, the
error leaves the state unchanged, and the repeated call on that same
state raises again — while deleting a non-existent id is a silent
no-op with no existence flag returned. -/
theorem C5_delete_expired_diverges :
    delete_session_diverges 99 c5_state 6
    ∧ delete_session 3 99 c5_empty 6 = .ok c5_empty :=
  ⟨delete_session_expired_diverges 99 c5_state 6 c5_row (by decide) (by decide),
   by decide⟩

/-- Claim C6 counterexample: `save_model` for the non-existent session
id 42 raises `ValueError`, not a `SessionNotFound` error (no such
exception exists in the code base), and for the expired session id 8 it
raises the recursion error; in both cases the carried state is the
unchanged input, so no file was written. -/
theorem C6_save_wrong_error :
    save_model 10 1 c6_state c6_ml 42 7 = .error (.valueError, c6_state)
    ∧ SMErr.valueError ≠ SMErr.sessionNotFound
    ∧ save_model_diverges 9 c6_exp_state c6_ml 8 7 :=
  ⟨by decide, by decide,
   save_model_expired_diverges 9 c6_exp_state c6_ml 8 7 c6_row
     (by decide) (by decide)⟩

/-- Claim C6 as amended: for a session id with no store row,
`save_model` raises `ValueError` and the state at the raise point is
exactly the input state — no artifact, data or metadata file of any
session is created or modified; for an expired session id it raises the
recursion error, likewise with the state unchanged. -/
theorem C6_save_no_writes_on_missing (fuel now : Nat) (s : SMState)
    (ml : MLState) (sid n : Nat) :
    (s.store.find? (fun r => r.session_id == sid) = none →
      save_model (fuel + 1) now s ml sid n = .error (.valueError, s))
    ∧ (∀ row, s.store.find? (fun r => r.session_id == sid) = some row →
        row.expires_at < now → save_model_diverges now s ml sid n) := by
  constructor
  · intro h
    simp [save_model, get_session_not_found fuel now s sid h]
  · intro row hfind hexp
    exact save_model_expired_diverges now s ml sid n row hfind hexp

/-- Claim C6 amended-claim witness at concrete states. -/
theorem C6_save_no_writes_witness :
    save_model 4 1 c6_state c6_ml 42 7 = .error (.valueError, c6_state)
    ∧ save_model_diverges 9 c6_exp_state c6_ml 8 7 :=
  ⟨(C6_save_no_writes_on_missing 3 1 c6_state c6_ml 42 7).1 (by decide),
   (C6_save_no_writes_on_missing 0 9 c6_exp_state c6_ml 8 7).2 c6_row
     (by decide) (by decide)⟩

/-- Every branch of `save_model` ends in an exception: `ValueError` on
a missing session, the recursion error on an expired one, a failed
`open` on a missing directory, and otherwise the `OperationalError`
escaping the data-store step. -/
theorem save_model_never_ok : save_model_always_fails := by
  intro fuel now s ml sid n
  unfold save_model
  split
  · rfl
  · rfl
  · split <;> rfl

/-- Claim C3 (code bug): `save_model` has no successful call — for any
input it raises — so no session ever has "a successful `save_model`".
On the concrete live, cached session: the call raises the
`OperationalError` of the data-store step; the three pickles were
re-written and the `schedule_data` table dropped, but `metadata.json`
was never written and the in-memory cache entry was not updated, so a
subsequent `load_model` still serves the stale pre-save state
`c3_v1`. -/
theorem C3_save_model_never_succeeds :
    save_model_always_fails
    ∧ saveErr (save_model 10 1 c3_state c3_v2 3 7)
        = some SMErr.operationalError
    ∧ (saveState (save_model 10 1 c3_state c3_v2 3 7)).cache = [(3, c3_v1)]
    ∧ alookup (saveState (save_model 10 1 c3_state c3_v2 3 7)).disk 33
        = some { c3_dir with
                 arrival := some c3_v2.model_start_time,
                 departure := some c3_v2.model_end_time,
                 encoder := some (c3_v2.id_encoder, c3_v2.id_map),
                 data_db := none }
    ∧ loadResult
        (load_model 10 1 (saveState (save_model 10 1 c3_state c3_v2 3 7)) 3)
        = some c3_v1 :=
  ⟨save_model_never_ok, by decide, by decide, by decide, by decide⟩

end WorkTimePred
